import Mathlib

/-!
Verification of the msmtp-mailer library (`msmtp_mail.py`): a shallow
embedding of `EmailMessageBuilder` and `MsmtpClient` together with proofs
about their behaviour.

Modelling notes.
The Python code builds an `email.message.EmailMessage`, which (being a
`MIMEPart`) uses `email.policy.default`.  Under that policy the headers set
by this library (`Subject`, `From`, `To`, `Cc`) all have `max_count = 1`,
so `Message.__setitem__` raises `ValueError` when such a header is already
present; this is modelled faithfully by `Msg.setHeader`.  Header values are
stored as the exact strings the library passes to `__setitem__`; payload
state is modelled by the optional text body plus the attachment list, which
is exactly the part structure `EmailMessage` exhibits under the operations
this library performs (`set_content`, `add_attachment`).  File input
(recipient files, attachment data) is passed in as already-read values, and
the outcome of `subprocess.run` is passed in as a `ProcRes` value, since
process execution and the wall clock are outside the embedding.
-/

namespace MsmtpMail

/-- Constant `MSMTP_ACCOUNT` from `msmtp_mail.py`. -/
def MSMTP_ACCOUNT : String := "gmail"

/-- Constant `MSMTP_FROM_EMAIL` from `msmtp_mail.py` (the fixed sender address). -/
def MSMTP_FROM_EMAIL : String := "u0992244071@gmail.com"

/-- Constant `MSMTP_DEFAULT_FULLNAME` from `msmtp_mail.py`. -/
def MSMTP_DEFAULT_FULLNAME : String := "N150 Home Server Monitoring"

/-- The Python exceptions the library can raise or propagate:
`EmailBuildError`, `MsmtpSendError` (its own two kinds), plus `ValueError`
(raised by `Message.__setitem__` on a duplicate unique header), `TypeError`
(raised by `set_content` on a multipart message) and `FileNotFoundError`
(raised by `os.makedirs` on an empty path). -/
inductive PyErr
| emailBuildError (msg : String)
| msmtpSendError (msg : String)
| valueError (msg : String)
| typeError (msg : String)
| fileNotFoundError (msg : String)
deriving DecidableEq, Repr

/-- One attachment part of the message: the file bytes together with the
MIME main type, subtype and filename that `add_attachment` records. -/
structure Attachment where
  data : String
  maintype : String
  subtype : String
  filename : String
deriving DecidableEq, Repr

/-- The state of the `EmailMessage` of the builder (`self._msg`): the ordered
header list, the optional text body set by `set_content` (text together
with its subtype), and the attachment parts added by `add_attachment`. -/
structure Msg where
  headers : List (String × String)
  body : Option (String × String)
  attachments : List Attachment
deriving DecidableEq, Repr

/-- A fresh `EmailMessage()`. -/
def Msg.empty : Msg := { headers := [], body := none, attachments := [] }

/-- Python `Message.get(name)` as this library uses it: the value of the
first header with the given name, if any. -/
def Msg.getHeader (m : Msg) (name : String) : Option String :=
  (m.headers.find? (fun kv => kv.1 == name)).map (fun kv => kv.2)

/-- Number of headers with the given name. -/
def Msg.countHeader (m : Msg) (name : String) : Nat :=
  (m.headers.filter (fun kv => kv.1 == name)).length

/-- Python `msg[name] = value` for the headers this library sets.  Under
`email.policy.default` the headers `Subject`, `From`, `To` and `Cc` all
have `max_count = 1`, so `__setitem__` raises `ValueError` when a header
of that name is already stored; otherwise the header is appended. -/
def Msg.setHeader (m : Msg) (name value : String) : Except PyErr Msg :=
  if m.headers.any (fun kv => kv.1 == name) then
    .error (.valueError ("There may be at most 1 " ++ name ++ " headers in a message"))
  else
    .ok { m with headers := m.headers ++ [(name, value)] }

/-- Python `msg.is_multipart()` for the states this library produces: the
message is multipart exactly when attachments have been added. -/
def Msg.isMultipart (m : Msg) : Bool := !m.attachments.isEmpty

/-- The content types of the parts of a multipart message, in payload
order: the text body part (if `set_content` was called) followed by the
attachment parts. -/
def Msg.contentTypes (m : Msg) : List String :=
  (match m.body with
   | some bs => ["text/" ++ bs.2]
   | none => []) ++ m.attachments.map (fun a => a.maintype ++ "/" ++ a.subtype)

/-- The body-presence check of `build()`: for a multipart message, at least
one part whose content type is `text/plain` or `text/html`; for a single
part message, a non-empty decoded payload, which (because `set_content`
always stores a newline-terminated string) holds exactly when a body was
set. -/
def Msg.bodyPresent (m : Msg) : Bool :=
  if m.isMultipart then
    (m.contentTypes).any (fun t => t == "text/plain" || t == "text/html")
  else
    m.body.isSome

/-- The subject check of `build()`: Python `not self._msg.get("Subject")`
is true when the header is absent or its value is the empty string. -/
def Msg.subjectTruthy (m : Msg) : Bool :=
  match m.getHeader "Subject" with
  | none => false
  | some s => !(s == "")

/-- The builder state (`EmailMessageBuilder.__init__`): the accumulated
message, the sender display name and the three recipient lists (`toRecip`
models the Python field `_to`; `to` is a reserved token in Lean). -/
structure Builder where
  msg : Msg
  fromFullName : String
  toRecip : List String
  cc : List String
  bcc : List String
deriving DecidableEq, Repr

/-- `EmailMessageBuilder()`. -/
def Builder.init : Builder :=
  { msg := Msg.empty
    fromFullName := MSMTP_DEFAULT_FULLNAME
    toRecip := []
    cc := []
    bcc := [] }

/-- `set_from_full_name(name)`. -/
def Builder.setFromFullName (b : Builder) (name : String) : Builder :=
  { b with fromFullName := name }

/-- `add_to(email)`. -/
def Builder.addTo (b : Builder) (email : String) : Builder :=
  { b with toRecip := b.toRecip ++ [email] }

/-- `add_cc(email)`. -/
def Builder.addCc (b : Builder) (email : String) : Builder :=
  { b with cc := b.cc ++ [email] }

/-- `add_bcc(email)`. -/
def Builder.addBcc (b : Builder) (email : String) : Builder :=
  { b with bcc := b.bcc ++ [email] }

/-- `set_subject(subject)`: `self._msg["Subject"] = subject`, which under
the default policy appends the header or raises `ValueError` when a
Subject header is already present. -/
def Builder.setSubject (b : Builder) (subject : String) : Except PyErr Builder :=
  (b.msg.setHeader "Subject" subject).map (fun m => { b with msg := m })

/-- `set_body(text, subtype)`: `self._msg.set_content(text, subtype=...)`.
`ContentManager.set_content` raises `TypeError` on a multipart message;
otherwise it clears any previous content and stores the new text body. -/
def Builder.setBody (b : Builder) (text subtype : String) : Except PyErr Builder :=
  if b.msg.isMultipart then
    .error (.typeError "set_content not valid on multipart")
  else
    .ok { b with msg := { b.msg with body := some (text, subtype) } }

/-- `add_attachment(path, mime_type, filename)` after the file has been
read: appends an attachment part with the resolved MIME main type, subtype
and filename (the file-existence check and the byte read are I/O and happen
before this state change). -/
def Builder.addAttachment (b : Builder) (a : Attachment) : Builder :=
  { b with msg := { b.msg with attachments := b.msg.attachments ++ [a] } }

/-- The characters of `email.utils.specialsre`: a display name containing
any of them is wrapped in double quotes by `formataddr`. -/
def addrSpecials : List Char :=
  ['[', ']', '\\', '(', ')', '<', '>', '@', ',', ':', ';', '\"', '.']

/-- The escaping of `email.utils.escapesre`: every backslash or double
quote in the display name is prefixed with a backslash. -/
def escapeAddrName (s : String) : String :=
  String.mk (s.toList.foldr
    (fun c acc => if c = '\\' ∨ c = '\"' then '\\' :: c :: acc else c :: acc) [])

/-- UTF-8 encoding of one character, as byte values. -/
def utf8Char (c : Char) : List Nat :=
  let n := c.toNat
  if n < 128 then [n]
  else if n < 2048 then [192 + n / 64, 128 + n % 64]
  else if n < 65536 then [224 + n / 4096, 128 + n / 64 % 64, 128 + n % 64]
  else [240 + n / 262144, 128 + n / 4096 % 64, 128 + n / 64 % 64, 128 + n % 64]

/-- UTF-8 encoding of a string, as byte values. -/
def utf8Bytes (s : String) : List Nat :=
  s.toList.flatMap utf8Char

/-- The base64 alphabet. -/
def b64Alphabet : List Char :=
  "ABCDEFGHIJKLMNOPQRSTUVWXYZabcdefghijklmnopqrstuvwxyz0123456789+/".toList

/-- The base64 digit for a 6-bit value. -/
def b64Digit (n : Nat) : Char := b64Alphabet.getD n 'A'

/-- Standard base64 encoding of a byte list, with padding. -/
def base64 : List Nat → List Char
| [] => []
| [a] => [b64Digit (a / 4), b64Digit (a % 4 * 16), '=', '=']
| [a, b] => [b64Digit (a / 4), b64Digit (a % 4 * 16 + b / 16), b64Digit (b % 16 * 4), '=']
| a :: b :: c :: rest =>
    b64Digit (a / 4) :: b64Digit (a % 4 * 16 + b / 16) ::
    b64Digit (b % 16 * 4 + c / 64) :: b64Digit (c % 64) :: base64 rest

/-- `email.utils.formataddr((name, addr))` with the default utf-8 charset:
an empty name yields the bare address; an all-ASCII name is escaped and,
when it contains a special character, wrapped in double quotes, then
followed by the angle-bracketed address; a non-ASCII name is emitted as an
RFC 2047 base64 encoded word. -/
def formataddr (name addr : String) : String :=
  if name = "" then addr
  else if name.toList.all (fun c => decide (c.toNat ≤ 127)) then
    let quotes := if name.toList.any (fun c => decide (c ∈ addrSpecials)) then "\"" else ""
    quotes ++ escapeAddrName name ++ quotes ++ " <" ++ addr ++ ">"
  else
    "=?utf-8?b?" ++ String.mk (base64 (utf8Bytes name)) ++ "?= <" ++ addr ++ ">"

/-- Python `", ".join(xs)`. -/
def commaJoin (xs : List String) : String := String.intercalate ", " xs

/-- Worker for `dedupFirst`: keep each element not seen before, in order,
remembering the seen ones. -/
def dedupFirstAux (seen : List String) : List String → List String
| [] => []
| x :: xs => if x ∈ seen then dedupFirstAux seen xs else x :: dedupFirstAux (x :: seen) xs

/-- Python `list(dict.fromkeys(l))`: drop every occurrence of an element
after its first, keeping first-seen order. -/
def dedupFirst (l : List String) : List String := dedupFirstAux [] l

/-- `recipients()`: `list(dict.fromkeys(self._to + self._cc + self._bcc))`. -/
def Builder.recipients (b : Builder) : List String :=
  dedupFirst (b.toRecip ++ b.cc ++ b.bcc)

/-- A parsed recipients file, covering the JSON shapes the loader
distinguishes: an object (with or without a "recipients" array of address
strings), an array of address strings, or any other JSON value. -/
inductive RecipJson
| obj (recipients : Option (List String))
| arr (elems : List String)
| other
deriving DecidableEq, Repr

/-- `load_recipients_from_file(path)` after the file I/O: `file` is the
parse outcome (`.error e` when `open` or `json.load` raised an exception
with message `e`).  Returns the builder state after the call together with
the raised exception, if any; every exception, including the internally
raised `EmailBuildError`s, is caught by the `except Exception` clause and
re-raised as `EmailBuildError` with the "Error reading recipient file"
message wrapping the cause. -/
def Builder.loadRecipientsFromFile (b : Builder) (file : Except String RecipJson) :
    Builder × Option PyErr :=
  match file with
  | .error e => (b, some (.emailBuildError ("Error reading recipient file: " ++ e)))
  | .ok data =>
    match data with
    | .other =>
      (b, some (.emailBuildError
        "Error reading recipient file: Recipient file format not recognized."))
    | .obj r =>
      let emails := r.getD []
      if emails.isEmpty then
        (b, some (.emailBuildError
          "Error reading recipient file: No emails found in recipient file."))
      else
        (emails.foldl (fun bb e => bb.addTo e) b, none)
    | .arr emails =>
      if emails.isEmpty then
        (b, some (.emailBuildError
          "Error reading recipient file: No emails found in recipient file."))
      else
        (emails.foldl (fun bb e => bb.addTo e) b, none)

/-- `build()`: validates recipients, subject and body in that order, then
sets the `From` header (via `formataddr` with the fixed sender address)
and, when the respective lists are non-empty, the comma-joined `To` and
`Cc` headers; no `Bcc` header is ever set.  The message is mutated in
place in Python, so the result carries both the updated builder and the
returned message (the same object). -/
def Builder.build (b : Builder) : Except PyErr (Builder × Msg) :=
  if b.toRecip.isEmpty && b.cc.isEmpty && b.bcc.isEmpty then
    .error (.emailBuildError "No recipients set (add_to/add_cc/add_bcc).")
  else if !b.msg.subjectTruthy then
    .error (.emailBuildError "No subject set.")
  else if !b.msg.bodyPresent then
    .error (.emailBuildError
      (if b.msg.isMultipart then "No body set in multipart message." else "No body set."))
  else
    match b.msg.setHeader "From" (formataddr b.fromFullName MSMTP_FROM_EMAIL) with
    | .error e => .error e
    | .ok m1 =>
      match (if b.toRecip.isEmpty then .ok m1 else m1.setHeader "To" (commaJoin b.toRecip) :
          Except PyErr Msg) with
      | .error e => .error e
      | .ok m2 =>
        match (if b.cc.isEmpty then .ok m2 else m2.setHeader "Cc" (commaJoin b.cc) :
            Except PyErr Msg) with
        | .error e => .error e
        | .ok m3 => .ok ({ b with msg := m3 }, m3)

/-- `os.path.dirname` for POSIX paths: everything up to the last slash,
with trailing slashes stripped unless the result is all slashes. -/
def pyDirname (p : String) : String :=
  let r := p.toList.reverse
  let headR := r.dropWhile (fun c => decide (c ≠ '/'))
  if headR.isEmpty then ""
  else if headR.all (fun c => decide (c = '/')) then String.mk headR.reverse
  else String.mk ((headR.dropWhile (fun c => decide (c = '/'))).reverse)

/-- The `MsmtpClient` state: the transport binary path and the optional
log file path. -/
structure MsmtpClient where
  msmtpPath : String
  logFile : Option String
deriving DecidableEq, Repr

/-- `MsmtpClient()` with the default arguments. -/
def MsmtpClient.init : MsmtpClient :=
  { msmtpPath := "/usr/bin/msmtp", logFile := none }

/-- `_build_cmd(recipients)`: `[self.msmtp_path, "-a", MSMTP_ACCOUNT] + recipients`. -/
def MsmtpClient.buildCmd (c : MsmtpClient) (recipients : List String) : List String :=
  c.msmtpPath :: "-a" :: MSMTP_ACCOUNT :: recipients

/-- Python `repr` of a list of plain address strings, as interpolated into
the log line by `f"... | To={recipients}"`. -/
def pyListRepr (xs : List String) : String :=
  "[" ++ commaJoin (xs.map (fun s => "\x27" ++ s ++ "\x27")) ++ "]"

/-- Python str of an optional header value: `None` when absent. -/
def pyStrOpt : Option String → String
| some s => s
| none => "None"

/-- `_write_log(success, subject, recipients, error)` with the timestamp
`ts` passed in (the wall clock is outside the embedding).  Returns the
lines appended to the log file.  A falsy (absent or empty) log file path
disables logging; `os.makedirs(os.path.dirname(path), exist_ok=True)`
raises `FileNotFoundError` when the path has no directory component, and
that exception propagates out of `_write_log`. -/
def MsmtpClient.writeLog (c : MsmtpClient) (success : Bool) (subject : String)
    (recipients : List String) (error : Option String) (ts : String) :
    Except PyErr (List String) :=
  match c.logFile with
  | none => .ok []
  | some path =>
    if path = "" then .ok []
    else if pyDirname path = "" then
      .error (.fileNotFoundError "[Errno 2] No such file or directory: \x27\x27")
    else
      let status := if success then "OK" else "FAIL (" ++ pyStrOpt error ++ ")"
      .ok ["[" ++ ts ++ "] " ++ status ++ " | Subject=\x27" ++ subject ++ "\x27 | To="
             ++ pyListRepr recipients ++ "\n"]

/-- `msg.as_bytes()` at the granularity of this model: the headers in
order, a blank line, then the body text and the attachment data (MIME
boundary and transfer-encoding details are not modelled; no claim inspects
the serialized form beyond identity). -/
def serializeMsg (m : Msg) : String :=
  String.join (m.headers.map (fun h => h.1 ++ ": " ++ h.2 ++ "\n")) ++ "\n" ++
  (match m.body with
   | some bs => bs.1 ++ "\n"
   | none => "") ++
  String.join (m.attachments.map (fun a => a.data))

/-- The outcome of `subprocess.run(cmd, input=..., timeout=timeout)`:
either a completed process with its exit code, stdout and stderr, or an
exception (start failure or `TimeoutExpired`) with its message. -/
inductive ProcRes
| completed (returncode : Int) (stdout stderr : String)
| failed (exc : String)
deriving DecidableEq, Repr

deriving instance DecidableEq for Except

/-- Everything observable about one `send()` call: the outcome (normal
return or raised exception), the transport invocation that took place
(command argument list and the bytes fed on standard input), and the log
lines appended. -/
structure SendTrace where
  outcome : Except PyErr Unit
  invocation : Option (List String × String)
  logLines : List String
deriving DecidableEq, Repr

/-- `send(builder, timeout)` with the process outcome `runres` and the
timestamp `ts` passed in.  Follows the source line by line: build the
message (a build failure propagates), compute the recipients and the
command, serialize, run the process; on an invocation exception write a
FAIL log line and raise `MsmtpSendError(str(e))`; on a non-zero exit code
write a FAIL log line and raise `MsmtpSendError(stderr)`; otherwise write
an OK log line and return.  `_write_log` is not guarded, so an exception
it raises propagates instead of the original result. -/
def MsmtpClient.send (c : MsmtpClient) (b : Builder) (runres : ProcRes) (ts : String) :
    SendTrace :=
  match b.build with
  | .error e => { outcome := .error e, invocation := none, logLines := [] }
  | .ok (b1, m) =>
    let recipients := b1.recipients
    let cmd := c.buildCmd recipients
    let raw := serializeMsg m
    let subject := pyStrOpt (m.getHeader "Subject")
    match runres with
    | .failed e =>
      match c.writeLog false subject recipients (some e) ts with
      | .error le => { outcome := .error le, invocation := some (cmd, raw), logLines := [] }
      | .ok lines =>
        { outcome := .error (.msmtpSendError e), invocation := some (cmd, raw),
          logLines := lines }
    | .completed rc _ errText =>
      if rc ≠ 0 then
        match c.writeLog false subject recipients (some errText) ts with
        | .error le => { outcome := .error le, invocation := some (cmd, raw), logLines := [] }
        | .ok lines =>
          { outcome := .error (.msmtpSendError errText), invocation := some (cmd, raw),
            logLines := lines }
      else
        match c.writeLog true subject recipients none ts with
        | .error le => { outcome := .error le, invocation := some (cmd, raw), logLines := [] }
        | .ok lines =>
          { outcome := .ok (), invocation := some (cmd, raw), logLines := lines }

/-- Substring containment: `sub` occurs contiguously inside `hay`. -/
def strContains (hay sub : String) : Prop := sub.toList <:+: hay.toList

instance (hay sub : String) : Decidable (strContains hay sub) :=
  List.decidableInfix _ _

/-- Reference description of `recipients()`, written from the words of
the spec: walk the concatenated list left to right and keep each address the
first time it is seen.  Compared against the source-derived `dedupFirst`. -/
def specFirstSeen (l : List String) : List String :=
  l.foldl (fun acc x => if x ∈ acc then acc else acc ++ [x]) []

/-- Whether an exception is the build-error kind of the library. -/
def PyErr.isBuildErr : PyErr → Bool
| .emailBuildError _ => true
| _ => false

/-- The log configuration cannot make `_write_log` raise: logging is
disabled, or the log path has a directory component for `os.makedirs`. -/
def MsmtpClient.writeLogOk (c : MsmtpClient) : Bool :=
  match c.logFile with
  | none => true
  | some p => p == "" || !(pyDirname p == "")

/-- A builder holding one recipient, a subject and a plain body: the state
of `test_send_success` in `test_msmtp_mail.py`. -/
def sampleBuilder : Builder :=
  { msg := { headers := [("Subject", "OK")], body := some ("Hi", "plain"), attachments := [] }
    fromFullName := MSMTP_DEFAULT_FULLNAME
    toRecip := ["dest@example.com"]
    cc := []
    bcc := [] }

/-- The message `sampleBuilder.build` produces. -/
def sampleBuiltMsg : Msg :=
  { headers := [("Subject", "OK"),
                ("From", "N150 Home Server Monitoring <u0992244071@gmail.com>"),
                ("To", "dest@example.com")]
    body := some ("Hi", "plain")
    attachments := [] }

/-- The builder state after `sampleBuilder.build`. -/
def sampleBuiltBuilder : Builder := { sampleBuilder with msg := sampleBuiltMsg }

/-- A fresh builder after one `set_subject("s1")` call. -/
def subjectOnceBuilder : Builder :=
  { Builder.init with msg := { headers := [("Subject", "s1")], body := none, attachments := [] } }

/-- A valid builder whose display name contains a backslash. -/
def backslashNameBuilder : Builder :=
  { msg := { headers := [("Subject", "s")], body := some ("t", "plain"), attachments := [] }
    fromFullName := "a\\b"
    toRecip := ["x@y"]
    cc := []
    bcc := [] }

/-- The From header value `build()` produces for the display name with a
backslash: the name is quoted and the backslash escaped. -/
def backslashNameFrom : String := "\"a\\\\b\" <u0992244071@gmail.com>"

/-- The message produced by building `sampleBuilder` after
`set_from_full_name("Test Alias")`. -/
def aliasBuiltMsg : Msg :=
  { headers := [("Subject", "OK"),
                ("From", "Test Alias <u0992244071@gmail.com>"),
                ("To", "dest@example.com")]
    body := some ("Hi", "plain")
    attachments := [] }

/-- The message `build()` produces for `backslashNameBuilder`. -/
def backslashBuiltMsg : Msg :=
  { headers := [("Subject", "s"), ("From", backslashNameFrom), ("To", "x@y")]
    body := some ("t", "plain")
    attachments := [] }

/-- A builder with subject and body but no recipient (`test_no_recipients_error`). -/
def noRecipBuilder : Builder :=
  { msg := { headers := [("Subject", "Test")], body := some ("Body", "plain"), attachments := [] }
    fromFullName := MSMTP_DEFAULT_FULLNAME
    toRecip := []
    cc := []
    bcc := [] }

/-- A builder with recipient and body but no subject (`test_no_subject_error`). -/
def noSubjectBuilder : Builder :=
  { msg := { headers := [], body := some ("Body", "plain"), attachments := [] }
    fromFullName := MSMTP_DEFAULT_FULLNAME
    toRecip := ["test@example.com"]
    cc := []
    bcc := [] }

/-- A builder with recipient and subject but no body (`test_no_body_error`). -/
def noBodyBuilder : Builder :=
  { msg := { headers := [("Subject", "Test")], body := none, attachments := [] }
    fromFullName := MSMTP_DEFAULT_FULLNAME
    toRecip := ["test@example.com"]
    cc := []
    bcc := [] }

/-- A valid builder with one To, one Cc and one Bcc recipient. -/
def fullBuilder : Builder :=
  { msg := { headers := [("Subject", "OK")], body := some ("Hi", "plain"), attachments := [] }
    fromFullName := MSMTP_DEFAULT_FULLNAME
    toRecip := ["to@x"]
    cc := ["cc@x"]
    bcc := ["bcc@x"] }

/-- The message `fullBuilder.build` produces: To and Cc headers set, no Bcc. -/
def fullBuiltMsg : Msg :=
  { headers := [("Subject", "OK"),
                ("From", "N150 Home Server Monitoring <u0992244071@gmail.com>"),
                ("To", "to@x"), ("Cc", "cc@x")]
    body := some ("Hi", "plain")
    attachments := [] }


theorem mem_dedupFirstAux (y : String) : ∀ (l seen : List String),
    y ∈ dedupFirstAux seen l ↔ y ∈ l ∧ y ∉ seen := by
  intro l
  induction l with
  | nil => intro seen; simp [dedupFirstAux]
  | cons x xs ih =>
    intro seen
    unfold dedupFirstAux
    by_cases hx : x ∈ seen
    · rw [if_pos hx, ih]
      by_cases hyx : y = x
      · subst hyx; simp [hx]
      · simp [hyx]
    · rw [if_neg hx]
      simp only [List.mem_cons, ih, List.mem_cons]
      by_cases hyx : y = x
      · subst hyx; simp [hx]
      · simp only [hyx, false_or]

theorem nodup_dedupFirstAux : ∀ (l seen : List String), (dedupFirstAux seen l).Nodup := by
  intro l
  induction l with
  | nil => intro seen; simp [dedupFirstAux]
  | cons x xs ih =>
    intro seen
    unfold dedupFirstAux
    by_cases hx : x ∈ seen
    · rw [if_pos hx]; exact ih _
    · rw [if_neg hx, List.nodup_cons]
      refine ⟨fun hmem => ?_, ih _⟩
      rw [mem_dedupFirstAux] at hmem
      exact hmem.2 (List.mem_cons_self x seen)

theorem mem_dedupFirst (y : String) (l : List String) : y ∈ dedupFirst l ↔ y ∈ l := by
  rw [dedupFirst, mem_dedupFirstAux]
  simp

theorem nodup_dedupFirst (l : List String) : (dedupFirst l).Nodup := nodup_dedupFirstAux l []

theorem foldl_firstSeen_eq_aux (l : List String) : ∀ acc seen : List String,
    (∀ y, y ∈ seen ↔ y ∈ acc) →
    List.foldl (fun acc x => if x ∈ acc then acc else acc ++ [x]) acc l
      = acc ++ dedupFirstAux seen l := by
  induction l with
  | nil => intro acc seen _; simp [dedupFirstAux]
  | cons x xs ih =>
    intro acc seen hiff
    rw [List.foldl_cons]
    unfold dedupFirstAux
    by_cases hx : x ∈ seen
    · rw [if_pos hx, if_pos ((hiff x).mp hx), ih _ _ hiff]
    · have hxa : x ∉ acc := fun hc => hx ((hiff x).mpr hc)
      rw [if_neg hx, if_neg hxa,
        ih (acc ++ [x]) (x :: seen) (fun y => by simp [hiff y, List.mem_append, or_comm])]
      simp [List.append_assoc]

theorem dedupFirst_eq_specFirstSeen (l : List String) : dedupFirst l = specFirstSeen l := by
  rw [specFirstSeen, dedupFirst, foldl_firstSeen_eq_aux l [] [] (by simp)]
  simp

theorem setHeader_ok {m : Msg} {n v : String} {m' : Msg}
    (h : m.setHeader n v = .ok m') :
    m'.headers = m.headers ++ [(n, v)] ∧ m'.body = m.body ∧
      m'.attachments = m.attachments ∧
      m.headers.any (fun kv => kv.1 == n) = false := by
  unfold Msg.setHeader at h
  split at h
  · exact absurd h (by simp)
  · next hc =>
    cases h
    exact ⟨rfl, rfl, rfl, Bool.eq_false_iff.mpr hc⟩

theorem setHeader_error {m : Msg} {n v : String} {e : PyErr}
    (h : m.setHeader n v = .error e) :
    e = .valueError ("There may be at most 1 " ++ n ++ " headers in a message") ∧
      m.headers.any (fun kv => kv.1 == n) = true := by
  unfold Msg.setHeader at h
  split at h
  · next hc => cases h; exact ⟨rfl, hc⟩
  · exact absurd h (by simp)

theorem find?_none_of_any_false {hs : List (String × String)} {n : String}
    (h : hs.any (fun kv => kv.1 == n) = false) :
    hs.find? (fun kv => kv.1 == n) = none := by
  rw [List.find?_eq_none]
  intro kv hkv hp
  have : hs.any (fun kv => kv.1 == n) = true := List.any_eq_true.mpr ⟨kv, hkv, hp⟩
  rw [h] at this
  exact Bool.false_ne_true this

theorem find?_append_left_none {hs rest : List (String × String)} {n : String}
    (h : hs.any (fun kv => kv.1 == n) = false) :
    (hs ++ rest).find? (fun kv => kv.1 == n) = rest.find? (fun kv => kv.1 == n) := by
  rw [List.find?_append, find?_none_of_any_false h]
  rfl

theorem foldl_addTo (emails : List String) : ∀ b : Builder,
    emails.foldl (fun bb e => bb.addTo e) b = { b with toRecip := b.toRecip ++ emails } := by
  induction emails with
  | nil => intro b; simp
  | cons e es ih =>
    intro b
    rw [List.foldl_cons, ih]
    simp [Builder.addTo, List.append_assoc]

theorem escapeAddrName_id (s : String)
    (h : ∀ c ∈ s.toList, c ≠ '\\' ∧ c ≠ '\"') : escapeAddrName s = s := by
  unfold escapeAddrName
  have : ∀ l : List Char, (∀ c ∈ l, c ≠ '\\' ∧ c ≠ '\"') →
      (l.foldr (fun c acc => if c = '\\' ∨ c = '\"' then '\\' :: c :: acc else c :: acc) []) = l := by
    intro l
    induction l with
    | nil => intro _; rfl
    | cons c cs ih =>
      intro hl
      have hc := hl c (by simp)
      rw [List.foldr_cons, ih (fun d hd => hl d (by simp [hd]))]
      rw [if_neg (by tauto)]
  rw [this s.toList h]
  rfl

theorem build_ok_elim {b b' : Builder} {m : Msg} (h : b.build = .ok (b', m)) :
    b' = { b with msg := m } ∧
    (b.toRecip.isEmpty && b.cc.isEmpty && b.bcc.isEmpty) = false ∧
    b.msg.subjectTruthy = true ∧
    b.msg.bodyPresent = true ∧
    m.headers = b.msg.headers
        ++ [("From", formataddr b.fromFullName MSMTP_FROM_EMAIL)]
        ++ (if b.toRecip.isEmpty then [] else [("To", commaJoin b.toRecip)])
        ++ (if b.cc.isEmpty then [] else [("Cc", commaJoin b.cc)]) ∧
    m.body = b.msg.body ∧
    m.attachments = b.msg.attachments ∧
    b.msg.headers.any (fun kv => kv.1 == "From") = false ∧
    (b.toRecip.isEmpty = false → b.msg.headers.any (fun kv => kv.1 == "To") = false) ∧
    (b.cc.isEmpty = false → b.msg.headers.any (fun kv => kv.1 == "Cc") = false) := by
  unfold Builder.build at h
  split at h
  · exact absurd h (by simp)
  split at h
  · exact absurd h (by simp)
  split at h
  · exact absurd h (by simp)
  rename_i h1 h2 h3
  split at h
  · exact absurd h (by simp)
  rename_i m1 hFrom
  split at h
  · exact absurd h (by simp)
  rename_i m2 hTo
  split at h
  · exact absurd h (by simp)
  rename_i m3 hCc
  rw [Except.ok.injEq, Prod.mk.injEq] at h
  obtain ⟨hb', hm3⟩ := h
  subst hm3
  obtain ⟨hF1, hF2, hF3, hF4⟩ := setHeader_ok hFrom
  have hsubj : b.msg.subjectTruthy = true := by simpa using h2
  have hbody : b.msg.bodyPresent = true := by simpa using h3
  have hrec : (b.toRecip.isEmpty && b.cc.isEmpty && b.bcc.isEmpty) = false := by
    simpa using h1
  by_cases hTe : b.toRecip.isEmpty
  · rw [if_pos hTe] at hTo
    injection hTo with h12
    subst h12
    by_cases hCe : b.cc.isEmpty
    · rw [if_pos hCe] at hCc
      injection hCc with h23
      subst h23
      refine ⟨hb'.symm, hrec, hsubj, hbody, ?_, hF2, hF3, hF4, ?_, ?_⟩
      · simp [hTe, hCe, hF1]
      · intro hfalse; rw [hTe] at hfalse; cases hfalse
      · intro hfalse; rw [hCe] at hfalse; cases hfalse
    · rw [if_neg hCe] at hCc
      obtain ⟨hC1, hC2, hC3, hC4⟩ := setHeader_ok hCc
      refine ⟨hb'.symm, hrec, hsubj, hbody, ?_, by rw [hC2, hF2], by rw [hC3, hF3], hF4, ?_, ?_⟩
      · rw [hC1, hF1]
        simp [hTe, hCe, List.append_assoc]
      · intro hfalse; rw [hTe] at hfalse; cases hfalse
      · intro _
        rw [hF1, List.any_append] at hC4
        simp only [Bool.or_eq_false_iff] at hC4
        exact hC4.1
  · rw [if_neg hTe] at hTo
    obtain ⟨hT1, hT2, hT3, hT4⟩ := setHeader_ok hTo
    have hTany : b.msg.headers.any (fun kv => kv.1 == "To") = false := by
      rw [hF1, List.any_append] at hT4
      simp only [Bool.or_eq_false_iff] at hT4
      exact hT4.1
    by_cases hCe : b.cc.isEmpty
    · rw [if_pos hCe] at hCc
      injection hCc with h23
      subst h23
      refine ⟨hb'.symm, hrec, hsubj, hbody, ?_, by rw [hT2, hF2], by rw [hT3, hF3], hF4,
        fun _ => hTany, ?_⟩
      · rw [hT1, hF1]
        simp [hTe, hCe, List.append_assoc]
      · intro hfalse; rw [hCe] at hfalse; cases hfalse
    · rw [if_neg hCe] at hCc
      obtain ⟨hC1, hC2, hC3, hC4⟩ := setHeader_ok hCc
      refine ⟨hb'.symm, hrec, hsubj, hbody, ?_, by rw [hC2, hT2, hF2], by rw [hC3, hT3, hF3],
        hF4, fun _ => hTany, ?_⟩
      · rw [hC1, hT1, hF1]
        simp [hTe, hCe, List.append_assoc]
      · intro _
        rw [hT1, hF1] at hC4
        simp only [List.any_append, Bool.or_eq_false_iff] at hC4
        exact hC4.1.1
theorem build_error_no_recipients {b : Builder}
    (h : (b.toRecip.isEmpty && b.cc.isEmpty && b.bcc.isEmpty) = true) :
    b.build = .error (.emailBuildError "No recipients set (add_to/add_cc/add_bcc).") := by
  unfold Builder.build
  rw [if_pos h]

theorem build_error_no_subject {b : Builder}
    (hr : (b.toRecip.isEmpty && b.cc.isEmpty && b.bcc.isEmpty) = false)
    (hs : b.msg.subjectTruthy = false) :
    b.build = .error (.emailBuildError "No subject set.") := by
  unfold Builder.build
  rw [if_neg (by simp [hr]), if_pos (by simp [hs])]

theorem build_error_no_body {b : Builder}
    (hr : (b.toRecip.isEmpty && b.cc.isEmpty && b.bcc.isEmpty) = false)
    (hs : b.msg.subjectTruthy = true)
    (hb : b.msg.bodyPresent = false) :
    b.build = .error (.emailBuildError
      (if b.msg.isMultipart then "No body set in multipart message." else "No body set.")) := by
  unfold Builder.build
  rw [if_neg (by simp [hr]), if_neg (by simp [hs]), if_pos (by simp [hb])]

theorem build_error_shape {b : Builder} {e : PyErr} (h : b.build = .error e)
    (hr : (b.toRecip.isEmpty && b.cc.isEmpty && b.bcc.isEmpty) = false)
    (hs : b.msg.subjectTruthy = true)
    (hb : b.msg.bodyPresent = true) :
    ∃ s, e = .valueError s := by
  unfold Builder.build at h
  rw [if_neg (by simp [hr]), if_neg (by simp [hs]), if_neg (by simp [hb])] at h
  split at h
  · rename_i e1 hF
    obtain ⟨he, -⟩ := setHeader_error hF
    injection h with h'
    exact ⟨_, h' ▸ he⟩
  split at h
  · rename_i m1 hF e1 hT
    split at hT
    · exact absurd hT (by simp)
    · obtain ⟨he, -⟩ := setHeader_error hT
      injection h with h'
      exact ⟨_, h' ▸ he⟩
  split at h
  · rename_i m1 hF m2 hT e1 hC
    split at hC
    · exact absurd hC (by simp)
    · obtain ⟨he, -⟩ := setHeader_error hC
      injection h with h'
      exact ⟨_, h' ▸ he⟩
  · exact absurd h (by simp)

theorem writeLog_no_error {c : MsmtpClient} (h : c.writeLogOk = true)
    (success : Bool) (subject : String) (recips : List String) (err : Option String)
    (ts : String) (e : PyErr) :
    c.writeLog success subject recips err ts ≠ .error e := by
  intro hEq
  cases hc : c.logFile with
  | none => simp [MsmtpClient.writeLog, hc] at hEq
  | some p =>
    simp only [MsmtpClient.writeLogOk, hc] at h
    simp only [MsmtpClient.writeLog, hc] at hEq
    by_cases hp : p = ""
    · rw [if_pos hp] at hEq
      exact absurd hEq (by simp)
    · rw [if_neg hp] at hEq
      have hd : ¬(pyDirname p = "") := by
        simp only [hp, beq_iff_eq, Bool.or_eq_true_iff, decide_eq_true_iff, false_or,
          Bool.not_eq_true, Bool.not_eq_true', beq_eq_false_iff_ne, ne_eq] at h
        exact h
      rw [if_neg hd] at hEq
      exact absurd hEq (by simp)

theorem send_failed_outcome {c : MsmtpClient} {b b' : Builder} {m : Msg} (e : String)
    (ts : String) (hbuild : b.build = .ok (b', m)) (hlog : c.writeLogOk = true) :
    (c.send b (.failed e) ts).outcome = .error (.msmtpSendError e) := by
  unfold MsmtpClient.send
  rw [hbuild]
  dsimp only
  split
  · rename_i le hw
    exact absurd hw (writeLog_no_error hlog _ _ _ _ _ le)
  · rfl
theorem send_nonzero_outcome {c : MsmtpClient} {b b' : Builder} {m : Msg}
    (rc : Int) (out err ts : String) (hrc : rc ≠ 0)
    (hbuild : b.build = .ok (b', m)) (hlog : c.writeLogOk = true) :
    (c.send b (.completed rc out err) ts).outcome = .error (.msmtpSendError err) := by
  unfold MsmtpClient.send
  rw [hbuild]
  dsimp only
  rw [if_pos hrc]
  split
  · rename_i le hw
    exact absurd hw (writeLog_no_error hlog _ _ _ _ _ le)
  · rfl

theorem send_zero_outcome {c : MsmtpClient} {b b' : Builder} {m : Msg}
    (out err ts : String)
    (hbuild : b.build = .ok (b', m)) (hlog : c.writeLogOk = true) :
    (c.send b (.completed 0 out err) ts).outcome = .ok () := by
  unfold MsmtpClient.send
  rw [hbuild]
  dsimp only
  rw [if_neg (by simp)]
  split
  · rename_i le hw
    exact absurd hw (writeLog_no_error hlog _ _ _ _ _ le)
  · rfl

theorem send_invocation_eq {c : MsmtpClient} {b b' : Builder} {m : Msg}
    (runres : ProcRes) (ts : String)
    (hbuild : b.build = .ok (b', m)) :
    (c.send b runres ts).invocation
      = some (c.msmtpPath :: "-a" :: MSMTP_ACCOUNT :: b.recipients, serializeMsg m) := by
  obtain ⟨hb', -⟩ := build_ok_elim hbuild
  subst hb'
  unfold MsmtpClient.send
  rw [hbuild]
  dsimp only
  cases runres with
  | failed e =>
    dsimp only
    split <;> rfl
  | completed rc out err =>
    dsimp only
    by_cases hrc : rc ≠ 0
    · rw [if_pos hrc]
      split <;> rfl
    · rw [if_neg hrc]
      split <;> rfl

/-- Claim C3: recipients() returns the deduplicated union of the To, Cc
and Bcc lists in first-seen order (it equals the first-seen fold of the spec,
has no duplicates, and contains exactly the union), and in particular with
To=[to@x], Cc=[cc@x], Bcc=[bcc@x] it returns exactly [to@x, cc@x, bcc@x]
of length 3. -/
theorem recipients_dedup_first_seen (b : Builder) :
    b.recipients = specFirstSeen (b.toRecip ++ b.cc ++ b.bcc) ∧
    b.recipients.Nodup ∧
    (∀ x, x ∈ b.recipients ↔ x ∈ b.toRecip ++ b.cc ++ b.bcc) ∧
    (Builder.init.addTo "to@x" |>.addCc "cc@x" |>.addBcc "bcc@x").recipients
        = ["to@x", "cc@x", "bcc@x"] ∧
    ((Builder.init.addTo "to@x" |>.addCc "cc@x" |>.addBcc "bcc@x").recipients).length = 3 :=
  ⟨dedupFirst_eq_specFirstSeen _, nodup_dedupFirst _, fun x => mem_dedupFirst x _,
   by decide, by decide⟩

/-- Claim C1: for every message that builds and every transport process
outcome, send() raises MsmtpSendError carrying the underlying cause
message when the process cannot be started or exceeds the timeout (both
surface as an invocation exception), raises MsmtpSendError carrying the
captured standard-error text when the process exits non-zero, and returns
without value on exit code 0 (with a log configuration whose write cannot
itself raise). -/
theorem send_transport_error_propagation (c : MsmtpClient) (b b' : Builder) (m : Msg)
    (ts : String) (hbuild : b.build = .ok (b', m)) (hlog : c.writeLogOk = true) :
    (∀ e, (c.send b (.failed e) ts).outcome = .error (.msmtpSendError e)) ∧
    (∀ (rc : Int) (out err : String), rc ≠ 0 →
      (c.send b (.completed rc out err) ts).outcome = .error (.msmtpSendError err)) ∧
    (∀ out err : String, (c.send b (.completed 0 out err) ts).outcome = .ok ()) :=
  ⟨fun e => send_failed_outcome e ts hbuild hlog,
   fun rc out err hrc => send_nonzero_outcome rc out err ts hrc hbuild hlog,
   fun out err => send_zero_outcome out err ts hbuild hlog⟩

/-- Witness for C1: the simulated transports of the unit tests (exit 1 with
stderr "AUTH error", an invocation exception, and exit 0). -/
theorem send_transport_error_propagation_witness :
    (MsmtpClient.init.send sampleBuilder (.completed 1 "" "AUTH error")
        "2025-10-12 00:00:00").outcome = .error (.msmtpSendError "AUTH error") ∧
    (MsmtpClient.init.send sampleBuilder (.failed "timeout expired")
        "2025-10-12 00:00:00").outcome = .error (.msmtpSendError "timeout expired") ∧
    (MsmtpClient.init.send sampleBuilder (.completed 0 "" "")
        "2025-10-12 00:00:00").outcome = .ok () :=
  ⟨(send_transport_error_propagation MsmtpClient.init sampleBuilder sampleBuiltBuilder
      sampleBuiltMsg "2025-10-12 00:00:00" (by decide) (by decide)).2.1 1 "" "AUTH error"
      (by decide),
   (send_transport_error_propagation MsmtpClient.init sampleBuilder sampleBuiltBuilder
      sampleBuiltMsg "2025-10-12 00:00:00" (by decide) (by decide)).1 "timeout expired",
   (send_transport_error_propagation MsmtpClient.init sampleBuilder sampleBuiltBuilder
      sampleBuiltMsg "2025-10-12 00:00:00" (by decide) (by decide)).2.2 "" ""⟩

/-- Claim C7: for every recipient list, send() invokes the external binary
with the argument list msmtp-path, "-a", fixed account, then every
recipient address in order, feeding the serialized message on the
standard input of the process, and on simulated exit code 0 send() returns
normally. -/
theorem send_invocation_args (c : MsmtpClient) (b b' : Builder) (m : Msg)
    (runres : ProcRes) (ts : String) (hbuild : b.build = .ok (b', m)) :
    (c.send b runres ts).invocation
      = some (c.msmtpPath :: "-a" :: MSMTP_ACCOUNT :: b.recipients, serializeMsg m) ∧
    (∀ out err : String, c.writeLogOk = true →
      (c.send b (.completed 0 out err) ts).outcome = .ok ()) :=
  ⟨send_invocation_eq runres ts hbuild,
   fun out err hlog => send_zero_outcome out err ts hbuild hlog⟩

/-- Witness for C7: the concrete command line and normal return of the
successful send of the unit tests. -/
theorem send_invocation_args_witness :
    (MsmtpClient.init.send sampleBuilder (.completed 0 "OK" "") "2025-10-12 00:00:00").invocation
      = some (["/usr/bin/msmtp", "-a", "gmail", "dest@example.com"], serializeMsg sampleBuiltMsg) ∧
    (MsmtpClient.init.send sampleBuilder (.completed 0 "OK" "") "2025-10-12 00:00:00").outcome
      = .ok () :=
  ⟨(send_invocation_args MsmtpClient.init sampleBuilder sampleBuiltBuilder sampleBuiltMsg
      (.completed 0 "OK" "") "2025-10-12 00:00:00" (by decide)).1,
   (send_invocation_args MsmtpClient.init sampleBuilder sampleBuiltBuilder sampleBuiltMsg
      (.completed 0 "OK" "") "2025-10-12 00:00:00" (by decide)).2 "OK" "" (by decide)⟩

/-- Claim C8 evidence: a log file configured as a bare filename makes
os.makedirs raise FileNotFoundError inside the unguarded _write_log, so a
send whose process exits 0 raises that exception instead of returning
normally and appends no log line — a log-write failure does suppress the
original send result.  With a well-formed log path, exactly one formatted
line is produced per attempt, in both the FAIL and the OK form. -/
theorem send_log_write_failure_eval :
    ({ msmtpPath := "/usr/bin/msmtp", logFile := some "msmtp.log" : MsmtpClient }.send
        sampleBuilder (.completed 0 "" "") "2025-10-12 00:00:00")
      = { outcome := .error (.fileNotFoundError "[Errno 2] No such file or directory: \x27\x27"),
          invocation := some (["/usr/bin/msmtp", "-a", "gmail", "dest@example.com"],
            serializeMsg sampleBuiltMsg),
          logLines := [] } ∧
    ({ msmtpPath := "/usr/bin/msmtp", logFile := some "/var/log/msmtp_mail.log" :
        MsmtpClient }.send sampleBuilder (.completed 1 "" "AUTH error")
        "2025-10-12 00:00:00").logLines
      = ["[2025-10-12 00:00:00] FAIL (AUTH error) | Subject=\x27OK\x27 | To=[\x27dest@example.com\x27]\n"] ∧
    ({ msmtpPath := "/usr/bin/msmtp", logFile := some "/var/log/msmtp_mail.log" :
        MsmtpClient }.send sampleBuilder (.completed 0 "" "") "2025-10-12 00:00:00").logLines
      = ["[2025-10-12 00:00:00] OK | Subject=\x27OK\x27 | To=[\x27dest@example.com\x27]\n"] :=
  ⟨by decide, by decide, by decide⟩

/-- The boolean all-lists-empty check of `build()` as a proposition. -/
theorem emptyBool_iff (b : Builder) :
    (b.toRecip.isEmpty && b.cc.isEmpty && b.bcc.isEmpty) = true
      ↔ (b.toRecip = [] ∧ b.cc = [] ∧ b.bcc = []) := by
  simp [List.isEmpty_iff, Bool.and_eq_true, and_assoc]

/-- Claim C2: build() fails with a build error exactly when a required
field is missing — To, Cc and Bcc all empty; subject unset (absent or
stored empty); or no body present (for a multipart message, no text/plain
or text/html part) — each condition independently with the other two
valid, and the error names the specific missing field. -/
theorem build_missing_field_errors (b : Builder) :
    ((∃ s, b.build = .error (.emailBuildError s)) ↔
      ((b.toRecip = [] ∧ b.cc = [] ∧ b.bcc = []) ∨
        b.msg.subjectTruthy = false ∨ b.msg.bodyPresent = false)) ∧
    (b.toRecip = [] → b.cc = [] → b.bcc = [] →
      b.build = .error (.emailBuildError "No recipients set (add_to/add_cc/add_bcc).")) ∧
    (¬(b.toRecip = [] ∧ b.cc = [] ∧ b.bcc = []) → b.msg.subjectTruthy = false →
      b.build = .error (.emailBuildError "No subject set.")) ∧
    (¬(b.toRecip = [] ∧ b.cc = [] ∧ b.bcc = []) → b.msg.subjectTruthy = true →
      b.msg.bodyPresent = false →
      b.build = .error (.emailBuildError
        (if b.msg.isMultipart then "No body set in multipart message." else "No body set."))) := by
  have hrec : ∀ h1 : b.toRecip = [], ∀ h2 : b.cc = [], ∀ h3 : b.bcc = [],
      b.build = .error (.emailBuildError "No recipients set (add_to/add_cc/add_bcc).") := by
    intro h1 h2 h3
    exact build_error_no_recipients ((emptyBool_iff b).mpr ⟨h1, h2, h3⟩)
  have hsub : ∀ _ : ¬(b.toRecip = [] ∧ b.cc = [] ∧ b.bcc = []),
      b.msg.subjectTruthy = false →
      b.build = .error (.emailBuildError "No subject set.") := by
    intro hne hs
    exact build_error_no_subject
      (Bool.eq_false_iff.mpr (fun hT => hne ((emptyBool_iff b).mp hT))) hs
  have hbod : ∀ _ : ¬(b.toRecip = [] ∧ b.cc = [] ∧ b.bcc = []),
      b.msg.subjectTruthy = true → b.msg.bodyPresent = false →
      b.build = .error (.emailBuildError
        (if b.msg.isMultipart then "No body set in multipart message." else "No body set.")) := by
    intro hne hs hb
    exact build_error_no_body
      (Bool.eq_false_iff.mpr (fun hT => hne ((emptyBool_iff b).mp hT))) hs hb
  refine ⟨⟨?_, ?_⟩, hrec, hsub, hbod⟩
  · rintro ⟨s, hs⟩
    by_contra hnot
    rw [not_or, not_or] at hnot
    obtain ⟨h1, h2, h3⟩ := hnot
    have hr : (b.toRecip.isEmpty && b.cc.isEmpty && b.bcc.isEmpty) = false :=
      Bool.eq_false_iff.mpr (fun hT => h1 ((emptyBool_iff b).mp hT))
    obtain ⟨s', he⟩ := build_error_shape hs hr (by simpa using h2) (by simpa using h3)
    cases he
  · rintro (⟨h1, h2, h3⟩ | hs | hb)
    · exact ⟨_, hrec h1 h2 h3⟩
    · by_cases hall : b.toRecip = [] ∧ b.cc = [] ∧ b.bcc = []
      · exact ⟨_, hrec hall.1 hall.2.1 hall.2.2⟩
      · exact ⟨_, hsub hall hs⟩
    · by_cases hall : b.toRecip = [] ∧ b.cc = [] ∧ b.bcc = []
      · exact ⟨_, hrec hall.1 hall.2.1 hall.2.2⟩
      · by_cases hs : b.msg.subjectTruthy = true
        · exact ⟨_, hbod hall hs hb⟩
        · exact ⟨_, hsub hall (Bool.not_eq_true _ ▸ hs)⟩

/-- Witness for C2 at the three unit-test builder states, one per missing
field. -/
theorem build_missing_field_errors_witness :
    noRecipBuilder.build
      = .error (.emailBuildError "No recipients set (add_to/add_cc/add_bcc).") ∧
    noSubjectBuilder.build = .error (.emailBuildError "No subject set.") ∧
    noBodyBuilder.build = .error (.emailBuildError "No body set.") :=
  ⟨(build_missing_field_errors noRecipBuilder).2.1 rfl rfl rfl,
   (build_missing_field_errors noSubjectBuilder).2.2.1 (by decide) (by decide),
   (build_missing_field_errors noBodyBuilder).2.2.2 (by decide) (by decide) (by decide)⟩

/-- Claim C6: a successful build() sets the To header to the comma-joined
To list and the Cc header to the comma-joined Cc list, each only when its
list is non-empty, and never sets a Bcc header (the Bcc header count is
unchanged); Bcc addresses appear in the recipients() delivery list. -/
theorem build_to_cc_headers_no_bcc (b b' : Builder) (m : Msg)
    (h : b.build = .ok (b', m)) :
    (b.toRecip ≠ [] → m.getHeader "To" = some (commaJoin b.toRecip)) ∧
    (b.toRecip = [] → m.getHeader "To" = b.msg.getHeader "To") ∧
    (b.cc ≠ [] → m.getHeader "Cc" = some (commaJoin b.cc)) ∧
    (b.cc = [] → m.getHeader "Cc" = b.msg.getHeader "Cc") ∧
    m.countHeader "Bcc" = b.msg.countHeader "Bcc" ∧
    (∀ x ∈ b.bcc, x ∈ b'.recipients) := by
  obtain ⟨hb', -, -, -, hhead, -, -, hFany, hTany, hCany⟩ := build_ok_elim h
  refine ⟨?_, ?_, ?_, ?_, ?_, ?_⟩
  · intro hT
    have hTe : b.toRecip.isEmpty = false := by simp [List.isEmpty_iff, hT]
    simp [Msg.getHeader, hhead, hTe, List.find?_append,
      find?_none_of_any_false (hTany hTe), List.find?]
  · intro hT
    have hTe : b.toRecip.isEmpty = true := by simp [List.isEmpty_iff, hT]
    by_cases hCe : b.cc.isEmpty
    · simp [Msg.getHeader, hhead, hTe, hCe, List.find?_append, List.find?]
    · simp [Msg.getHeader, hhead, hTe, hCe, List.find?_append, List.find?]
  · intro hC
    have hCe : b.cc.isEmpty = false := by simp [List.isEmpty_iff, hC]
    by_cases hTe : b.toRecip.isEmpty
    · simp [Msg.getHeader, hhead, hTe, hCe, List.find?_append,
        find?_none_of_any_false (hCany hCe), List.find?]
    · simp [Msg.getHeader, hhead, hTe, hCe, List.find?_append,
        find?_none_of_any_false (hCany hCe), List.find?]
  · intro hC
    have hCe : b.cc.isEmpty = true := by simp [List.isEmpty_iff, hC]
    by_cases hTe : b.toRecip.isEmpty
    · simp [Msg.getHeader, hhead, hTe, hCe, List.find?_append, List.find?]
    · simp [Msg.getHeader, hhead, hTe, hCe, List.find?_append, List.find?]
  · by_cases hTe : b.toRecip.isEmpty <;> by_cases hCe : b.cc.isEmpty <;>
      simp [Msg.countHeader, hhead, hTe, hCe, List.filter_append]
  · intro x hx
    subst hb'
    show x ∈ dedupFirst _
    rw [mem_dedupFirst]
    simp [hx]

/-- Witness for C6 on a builder with one To, one Cc and one Bcc address. -/
theorem build_to_cc_headers_no_bcc_witness :
    fullBuiltMsg.getHeader "To" = some "to@x" ∧
    fullBuiltMsg.getHeader "Cc" = some "cc@x" ∧
    fullBuiltMsg.countHeader "Bcc" = 0 ∧
    "bcc@x" ∈ ({ fullBuilder with msg := fullBuiltMsg } : Builder).recipients :=
  ⟨(build_to_cc_headers_no_bcc fullBuilder { fullBuilder with msg := fullBuiltMsg } fullBuiltMsg
      (by decide)).1 (by decide),
   (build_to_cc_headers_no_bcc fullBuilder { fullBuilder with msg := fullBuiltMsg } fullBuiltMsg
      (by decide)).2.2.1 (by decide),
   (build_to_cc_headers_no_bcc fullBuilder { fullBuilder with msg := fullBuiltMsg } fullBuiltMsg
      (by decide)).2.2.2.2.1,
   (build_to_cc_headers_no_bcc fullBuilder { fullBuilder with msg := fullBuiltMsg } fullBuiltMsg
      (by decide)).2.2.2.2.2 "bcc@x" (by decide)⟩

/-- Counterexample for C4 as stated: for the non-empty display name with a
backslash, the built From header is the quoted-and-escaped form, which
contains the fixed sender address but does not contain the display name as
a substring. -/
theorem from_display_name_not_contained_cex :
    backslashNameBuilder.fromFullName = "a\\b" ∧
    "a\\b" ≠ "" ∧
    backslashNameBuilder.build
      = .ok ({ backslashNameBuilder with msg := backslashBuiltMsg }, backslashBuiltMsg) ∧
    backslashBuiltMsg.getHeader "From" = some backslashNameFrom ∧
    strContains backslashNameFrom MSMTP_FROM_EMAIL ∧
    ¬ strContains backslashNameFrom "a\\b" := by decide

/-- Claim C4 as amended: for every non-empty all-ASCII display name
without double quotes or backslashes, a successful build() yields a From
header equal to formataddr of that name with the fixed sender address,
which contains both the display name and the fixed address; the address
argument is always the constant MSMTP_FROM_EMAIL, so no builder operation
can override it. -/
theorem from_header_contains_display_name (b b' : Builder) (m : Msg) (name : String)
    (hname : name ≠ "")
    (hchars : ∀ c ∈ name.toList, c.toNat ≤ 127 ∧ c ≠ '\\' ∧ c ≠ '\"')
    (hbuild : (b.setFromFullName name).build = .ok (b', m)) :
    m.getHeader "From" = some (formataddr name MSMTP_FROM_EMAIL) ∧
    strContains (formataddr name MSMTP_FROM_EMAIL) name ∧
    strContains (formataddr name MSMTP_FROM_EMAIL) MSMTP_FROM_EMAIL := by
  have hAscii : (name.toList.all (fun c => decide (c.toNat ≤ 127))) = true := by
    rw [List.all_eq_true]
    intro c hc
    exact decide_eq_true (hchars c hc).1
  have hesc : escapeAddrName name = name :=
    escapeAddrName_id name (fun c hc => (hchars c hc).2)
  obtain ⟨q, hv⟩ : ∃ q : String, formataddr name MSMTP_FROM_EMAIL
      = q ++ name ++ q ++ " <" ++ MSMTP_FROM_EMAIL ++ ">" := by
    refine ⟨if name.toList.any (fun c => decide (c ∈ addrSpecials)) then "\"" else "", ?_⟩
    rw [formataddr, if_neg hname, if_pos hAscii]
    dsimp only
    rw [hesc]
  obtain ⟨hb', -, -, -, hhead, -, -, hFany, -, -⟩ := build_ok_elim hbuild
  have hFany2 : b.msg.headers.any (fun kv => kv.1 == "From") = false := hFany
  refine ⟨?_, ?_, ?_⟩
  · by_cases hTe : (b.setFromFullName name).toRecip.isEmpty <;>
      by_cases hCe : (b.setFromFullName name).cc.isEmpty <;>
      simp [Msg.getHeader, hhead, hTe, hCe, List.find?_append,
        find?_none_of_any_false hFany2, List.find?, Builder.setFromFullName]
  · rw [hv]
    exact ⟨q.toList, (q ++ " <" ++ MSMTP_FROM_EMAIL ++ ">").toList,
      by simp [strContains, String.data_append, List.append_assoc]⟩
  · rw [hv]
    exact ⟨(q ++ name ++ q ++ " <").toList, ">".toList,
      by simp [strContains, String.data_append, List.append_assoc]⟩

/-- Witness for C4 (amended) at the display name used in the unit tests. -/
theorem from_header_contains_display_name_witness :
    aliasBuiltMsg.getHeader "From" = some (formataddr "Test Alias" MSMTP_FROM_EMAIL) ∧
    strContains (formataddr "Test Alias" MSMTP_FROM_EMAIL) "Test Alias" ∧
    strContains (formataddr "Test Alias" MSMTP_FROM_EMAIL) MSMTP_FROM_EMAIL :=
  from_header_contains_display_name sampleBuilder
    { sampleBuilder with fromFullName := "Test Alias", msg := aliasBuiltMsg }
    aliasBuiltMsg "Test Alias" (by decide) (by decide) (by decide)

/-- Claim C5: the loader reads the "recipients" key of an object (missing
key gives the empty list), uses an array directly, fails with a build
error on any other shape and on an empty resulting list (each error
carrying the underlying cause message), appends each address as a To
address, and the two concrete loads give exactly the expected To lists. -/
theorem load_recipients_file_shapes (b : Builder) (emails : List String) (e : String) :
    (emails ≠ [] → b.loadRecipientsFromFile (.ok (.obj (some emails)))
      = ({ b with toRecip := b.toRecip ++ emails }, none)) ∧
    (emails ≠ [] → b.loadRecipientsFromFile (.ok (.arr emails))
      = ({ b with toRecip := b.toRecip ++ emails }, none)) ∧
    b.loadRecipientsFromFile (.ok (.obj none))
      = (b, some (.emailBuildError
          "Error reading recipient file: No emails found in recipient file.")) ∧
    b.loadRecipientsFromFile (.ok (.obj (some [])))
      = (b, some (.emailBuildError
          "Error reading recipient file: No emails found in recipient file.")) ∧
    b.loadRecipientsFromFile (.ok (.arr []))
      = (b, some (.emailBuildError
          "Error reading recipient file: No emails found in recipient file.")) ∧
    b.loadRecipientsFromFile (.ok .other)
      = (b, some (.emailBuildError
          "Error reading recipient file: Recipient file format not recognized.")) ∧
    b.loadRecipientsFromFile (.error e)
      = (b, some (.emailBuildError ("Error reading recipient file: " ++ e))) ∧
    (Builder.init.loadRecipientsFromFile (.ok (.obj (some ["a@x", "b@x"])))).1.toRecip
      = ["a@x", "b@x"] ∧
    (Builder.init.loadRecipientsFromFile (.ok (.arr ["c@x", "d@x"]))).1.toRecip
      = ["c@x", "d@x"] := by
  refine ⟨?_, ?_, by simp [Builder.loadRecipientsFromFile],
    by simp [Builder.loadRecipientsFromFile], by simp [Builder.loadRecipientsFromFile],
    by simp [Builder.loadRecipientsFromFile], by simp [Builder.loadRecipientsFromFile],
    by decide, by decide⟩
  · intro hne
    have hne2 : emails.isEmpty = false := by simp [List.isEmpty_iff, hne]
    simp [Builder.loadRecipientsFromFile, hne2, foldl_addTo]
  · intro hne
    have hne2 : emails.isEmpty = false := by simp [List.isEmpty_iff, hne]
    simp [Builder.loadRecipientsFromFile, hne2, foldl_addTo]

/-- Witness for C5: the two successful concrete loads. -/
theorem load_recipients_file_shapes_witness :
    Builder.init.loadRecipientsFromFile (.ok (.obj (some ["a@x", "b@x"])))
      = ({ Builder.init with toRecip := ["a@x", "b@x"] }, none) ∧
    Builder.init.loadRecipientsFromFile (.ok (.arr ["c@x", "d@x"]))
      = ({ Builder.init with toRecip := ["c@x", "d@x"] }, none) :=
  ⟨(load_recipients_file_shapes Builder.init ["a@x", "b@x"] "").1 (by decide),
   (load_recipients_file_shapes Builder.init ["c@x", "d@x"] "").2.1 (by decide)⟩

/-- Claim C10: every failure path of load_recipients_from_file — parse or
read failure, unrecognized shape, empty list — raises a build error with
the builder state (To, Cc, Bcc lists included) unchanged; addresses are
appended only after all validation has passed. -/
theorem load_recipients_atomic (b r : Builder) (file : Except String RecipJson) (err : PyErr)
    (h : b.loadRecipientsFromFile file = (r, some err)) :
    r = b ∧ err.isBuildErr = true := by
  cases file with
  | error e =>
    simp only [Builder.loadRecipientsFromFile, Prod.mk.injEq, Option.some.injEq] at h
    obtain ⟨h1, h2⟩ := h
    subst h2
    exact ⟨h1.symm, rfl⟩
  | ok data =>
    cases data with
    | other =>
      simp only [Builder.loadRecipientsFromFile, Prod.mk.injEq, Option.some.injEq] at h
      obtain ⟨h1, h2⟩ := h
      subst h2
      exact ⟨h1.symm, rfl⟩
    | obj ro =>
      cases ro with
      | none =>
        simp only [Builder.loadRecipientsFromFile, Option.getD_none, List.isEmpty_nil,
          if_true, Prod.mk.injEq, Option.some.injEq] at h
        obtain ⟨h1, h2⟩ := h
        subst h2
        exact ⟨h1.symm, rfl⟩
      | some emails =>
        by_cases he : emails.isEmpty
        · simp only [Builder.loadRecipientsFromFile, Option.getD_some, he, if_true,
            Prod.mk.injEq, Option.some.injEq] at h
          obtain ⟨h1, h2⟩ := h
          subst h2
          exact ⟨h1.symm, rfl⟩
        · simp only [Builder.loadRecipientsFromFile, Option.getD_some, he, if_false,
            Prod.mk.injEq] at h
          simp [he] at h
    | arr emails =>
      by_cases he : emails.isEmpty
      · simp only [Builder.loadRecipientsFromFile, he, if_true, Prod.mk.injEq,
          Option.some.injEq] at h
        obtain ⟨h1, h2⟩ := h
        subst h2
        exact ⟨h1.symm, rfl⟩
      · simp [Builder.loadRecipientsFromFile, he] at h

/-- Witness for C10 at the empty-array recipients file. -/
theorem load_recipients_atomic_witness :
    (Builder.init.loadRecipientsFromFile (.ok (.arr []))).1 = Builder.init ∧
    (PyErr.emailBuildError
      "Error reading recipient file: No emails found in recipient file.").isBuildErr = true :=
  load_recipients_atomic Builder.init
    (Builder.init.loadRecipientsFromFile (.ok (.arr []))).1 (.ok (.arr []))
    (.emailBuildError "Error reading recipient file: No emails found in recipient file.") rfl

/-- Claim C9 as amended: a second set_subject raises ValueError (the
default policy allows at most one Subject header) and leaves the message
unchanged, so the read Subject value remains the first value set and the
Subject header count stays one; likewise a second build() raises
ValueError on the duplicate From header instead of appending one. -/
theorem set_subject_twice_valueerror (s1 s2 : String) :
    (∀ b b1 : Builder, b.msg.getHeader "Subject" = none → b.setSubject s1 = .ok b1 →
      b1.setSubject s2
          = .error (.valueError "There may be at most 1 Subject headers in a message") ∧
      b1.msg.getHeader "Subject" = some s1 ∧
      b1.msg.countHeader "Subject" = 1) ∧
    (∀ (b b' : Builder) (m : Msg), b.build = .ok (b', m) →
      b'.build = .error (.valueError "There may be at most 1 From headers in a message")) := by
  constructor
  · intro b b1 hnone hset
    have hfind : b.msg.headers.find? (fun kv => kv.1 == "Subject") = none :=
      Option.map_eq_none'.mp hnone
    have hany : b.msg.headers.any (fun kv => kv.1 == "Subject") = false := by
      rw [Bool.eq_false_iff]
      intro hT
      obtain ⟨kv, hkv, hp⟩ := List.any_eq_true.mp hT
      have := List.find?_eq_none.mp hfind kv hkv
      exact this hp
    unfold Builder.setSubject at hset
    rw [Msg.setHeader, if_neg (by simp [hany])] at hset
    simp only [Except.map] at hset
    injection hset with hb1
    subst hb1
    refine ⟨?_, ?_, ?_⟩
    · unfold Builder.setSubject
      rw [Msg.setHeader, if_pos (by simp [List.any_append])]
      rfl
    · unfold Msg.getHeader
      rw [List.find?_append, hfind]
      rfl
    · unfold Msg.countHeader
      rw [List.filter_append, List.filter_eq_nil_iff.mpr
        (by
          intro kv hkv hp
          exact List.find?_eq_none.mp hfind kv hkv hp)]
      rfl
  · intro b b' m hb
    obtain ⟨hb', hrec, hsubj, hbody, hhead, hbodyEq, hattEq, -, -, -⟩ := build_ok_elim hb
    have hget : m.getHeader "Subject" = b.msg.getHeader "Subject" := by
      by_cases hTe : b.toRecip.isEmpty <;> by_cases hCe : b.cc.isEmpty <;>
        simp [Msg.getHeader, hhead, hTe, hCe, List.find?_append, List.find?]
    have hsubj2 : m.subjectTruthy = true := by
      unfold Msg.subjectTruthy
      unfold Msg.subjectTruthy at hsubj
      rw [hget]
      exact hsubj
    have hbody2 : m.bodyPresent = true := by
      unfold Msg.bodyPresent Msg.isMultipart Msg.contentTypes
      unfold Msg.bodyPresent Msg.isMultipart Msg.contentTypes at hbody
      rw [hbodyEq, hattEq]
      exact hbody
    have hAny : m.headers.any (fun kv => kv.1 == "From") = true := by
      rw [hhead]
      simp [List.any_append]
    subst hb'
    unfold Builder.build
    rw [if_neg (by simp [hrec]), if_neg (by simp [hsubj2]), if_neg (by simp [hbody2])]
    have hSH : m.setHeader "From" (formataddr b.fromFullName MSMTP_FROM_EMAIL)
        = .error (.valueError "There may be at most 1 From headers in a message") := by
      rw [Msg.setHeader, if_pos hAny]
      rfl
    simp only [hSH]

/-- Counterexample for C9 as stated: the second set_subject does not
append a second Subject header — it raises ValueError and the header count
stays 1 — and a second build() raises ValueError instead of appending a
second From header. -/
theorem set_subject_appends_cex :
    Builder.init.setSubject "s1" = .ok subjectOnceBuilder ∧
    subjectOnceBuilder.setSubject "s2"
      = .error (.valueError "There may be at most 1 Subject headers in a message") ∧
    subjectOnceBuilder.msg.countHeader "Subject" = 1 ∧
    subjectOnceBuilder.msg.getHeader "Subject" = some "s1" ∧
    sampleBuilder.build = .ok (sampleBuiltBuilder, sampleBuiltMsg) ∧
    sampleBuiltBuilder.build
      = .error (.valueError "There may be at most 1 From headers in a message") := by decide

/-- Witness for C9 (amended) after set_subject("s1") on a fresh builder,
and a rebuild of the sample builder. -/
theorem set_subject_twice_valueerror_witness :
    (subjectOnceBuilder.setSubject "s2"
      = .error (.valueError "There may be at most 1 Subject headers in a message") ∧
     subjectOnceBuilder.msg.getHeader "Subject" = some "s1" ∧
     subjectOnceBuilder.msg.countHeader "Subject" = 1) ∧
    sampleBuiltBuilder.build
      = .error (.valueError "There may be at most 1 From headers in a message") :=
  ⟨(set_subject_twice_valueerror "s1" "s2").1 Builder.init subjectOnceBuilder rfl (by decide),
   (set_subject_twice_valueerror "s1" "s2").2 sampleBuilder sampleBuiltBuilder sampleBuiltMsg
     (by decide)⟩

end MsmtpMail
